import Mathlib

/-!
Shallow embedding of the tensor library (two variants in the repository:
the richer one in `src/tensor.h` + `src/tensor.cpp`, namespace `Core` below,
and the lighter one in `src/main_folder/tensor.h` + `src/main_folder/tensor.cpp`,
namespace `Lite` below), together with theorems checking the specification's
claims against these definitions.

Modelling conventions:
  - Shape dimensions are modelled as `Nat`.  The lite variant stores dims as
    `std::vector<size_t>` (non-negative by type); the rich variant stores
    `int32_t`, but the data model restricts dims to non-negative integers and
    every validating constructor rejects `dim <= 0`, which over `Nat` is the
    test `dim = 0`.  Arithmetic is exact (no-overflow semantics: signed
    overflow in the C++ source is undefined behaviour, not wrap-around).
  - The raw byte buffers behind `shared_ptr<uint8_t>` are modelled by an
    explicit heap mapping buffer ids to element-indexed contents; allocation
    hands out a fresh id, and a `Tensor`'s `data_` field holds `some id`
    (a null `shared_ptr` is `none`).  Element values are modelled as `Int`
    (the only float values the code ever writes, `0.0f` and `1.0f`, are exact,
    and `memcpy`/`fill` move values verbatim, so no float arithmetic occurs).
  - C++ constructors that can throw are modelled as functions into
    `Except TensorError`; `std::invalid_argument` becomes
    `TensorError.InvalidArgument` and `std::runtime_error` becomes
    `TensorError.RuntimeError`, each carrying the source's message string.
-/

/-- Kinds of exceptions the source throws: `std::invalid_argument` and
`std::runtime_error`, with the message from the source. -/
inductive TensorError : Type where
  | InvalidArgument : String → TensorError
  | RuntimeError : String → TensorError
deriving DecidableEq, Repr

/-- The allocator state: `bufs` maps a buffer id and an element offset to the
stored value, `next` is the next fresh buffer id.  A fresh buffer's contents
are whatever `bufs` already holds at that id, modelling uninitialized memory. -/
structure Heap : Type where
  bufs : Nat → Nat → Int
  next : Nat

/-- Allocate a fresh buffer: return its id and bump the counter. -/
def Heap.alloc (h : Heap) : Heap × Nat :=
  ({ h with next := h.next + 1 }, h.next)

/-- Model of `memcpy`ing a list of element values to the start of buffer `b`:
offsets `0 .. data.length - 1` are overwritten, the rest keeps its old value. -/
def Heap.store (h : Heap) (b : Nat) (data : List Int) : Heap :=
  { h with
    bufs := fun b' off =>
      if b' = b then data.getD off (h.bufs b' off) else h.bufs b' off }

/-- Model of writing one element value at offset `off` of buffer `b`
(one store through a typed pointer obtained from `data<T>()`). -/
def Heap.write (h : Heap) (b : Nat) (off : Nat) (v : Int) : Heap :=
  { h with
    bufs := fun b' o =>
      if b' = b then (if o = off then v else h.bufs b' o) else h.bufs b' o }

/-- A concrete starting heap used to instantiate theorems. -/
def emptyHeap : Heap := ⟨fun _ _ => 0, 0⟩

/-- Shared loop body of both variants' `compute_strides`: walking the dims
from last to first with a running product `stride_val` that starts at 1,
each dimension receives the current `stride_val` as its stride and then
multiplies `stride_val` by its own size.  Returns the stride list together
with the final running product. -/
def compute_strides_loop : List Nat → List Nat × Nat
  | [] => ([], 1)
  | d :: rest =>
    let p := compute_strides_loop rest
    (p.2 :: p.1, p.2 * d)

namespace Core

/-- Dtype enumeration from `src/tensor.h` lines 15-19. -/
inductive Dtype : Type where
  | Int16 | Int32 | Int64
  | Bfloat16 | Float16
  | Float32 | Float64
deriving DecidableEq, Repr

/-- Element size of a `Dtype`, `src/tensor.h` lines 22-33.  The `switch`
covers every enumerator, so the throwing `default` branch is unreachable and
the function is total over the closed enumeration. -/
def dtype_size : Dtype → Nat
  | .Int16 => 2
  | .Int32 => 4
  | .Int64 => 8
  | .Bfloat16 => 2
  | .Float16 => 2
  | .Float32 => 4
  | .Float64 => 8

/-- Device type, `src/tensor.h` lines 39-42. -/
inductive DeviceType : Type where
  | CPU | CUDA
deriving DecidableEq, Repr

/-- Device descriptor, `src/tensor.h` lines 44-50; the C++ default
constructor gives `(CPU, 0)`. -/
structure Device : Type where
  type : DeviceType
  index : Int
deriving DecidableEq, Repr

/-- The C++ default `Device()`: CPU with index 0. -/
def Device.cpu0 : Device := ⟨.CPU, 0⟩

/-- Shape wrapper, `src/tensor.h` lines 56-61. -/
structure Shape : Type where
  dims : List Nat
deriving DecidableEq, Repr

/-- Stride wrapper, `src/tensor.h` lines 63-68. -/
structure Stride : Type where
  strides : List Nat
deriving DecidableEq, Repr

/-- The `Tensor` record, `src/tensor.h` lines 130-142.  `data_` is the
`shared_ptr<uint8_t>` modelled as an optional buffer id into a `Heap`. -/
structure Tensor : Type where
  shape_ : Shape
  stride_ : Stride
  dtype_ : Dtype
  device_ : Device
  requires_grad_ : Bool
  is_owner_ : Bool
  data_ : Option Nat
deriving DecidableEq, Repr

/-- `Tensor::numel`, `src/tensor.cpp` lines 9-16: 0 for an empty dims vector,
otherwise `std::accumulate` (a left fold starting at 1) of the dims. -/
def numel (dims : List Nat) : Nat :=
  if dims = [] then 0 else dims.foldl (· * ·) 1

/-- `Tensor::compute_strides`, `src/tensor.cpp` lines 21-35, as a pure
function from the dims to the stride vector: an empty shape clears the
strides, otherwise the reverse-order running-product loop fills them. -/
def compute_strides (dims : List Nat) : List Nat :=
  if dims = [] then [] else (compute_strides_loop dims).1

/-- Accessor `Tensor::numel()` on a tensor value. -/
def Tensor.numel (t : Tensor) : Nat := Core.numel t.shape_.dims

/-- `Tensor::nbytes`, `src/tensor.h` line 110: `numel() * dtype_size(dtype_)`. -/
def Tensor.nbytes (t : Tensor) : Nat := t.numel * dtype_size t.dtype_

/-- `Tensor::allocate_memory`, `src/tensor.cpp` lines 40-70: rejects a
zero-byte request, allocates on CPU, and fails for CUDA / other devices.
Returns the updated heap and the fresh buffer id. -/
def allocate_memory (h : Heap) (total_bytes : Nat) (device : Device) :
    Except TensorError (Heap × Nat) :=
  if total_bytes = 0 then
    .error (.RuntimeError "Cannot allocate memory for empty tensor.")
  else
    match device.type with
    | .CPU => .ok h.alloc
    | .CUDA => .error (.RuntimeError "CUDA device allocation not implemented yet.")

/-- The primary constructor `Tensor::Tensor(shape, dtype, device,
requires_grad)`, `src/tensor.cpp` lines 75-97: validates that the shape is
non-empty and every dim positive (`dim <= 0` over non-negative dims is
`dim = 0`), computes strides, then allocates `nbytes()` bytes and marks the
tensor as owner of its buffer. -/
def Tensor.construct (h : Heap) (shape : Shape) (dtype : Dtype)
    (device : Device) (requires_grad : Bool) :
    Except TensorError (Heap × Tensor) :=
  if shape.dims = [] then
    .error (.InvalidArgument "Tensor shape cannot be empty.")
  else if shape.dims.any (fun d => d = 0) then
    .error (.InvalidArgument "Tensor dimensions must be positive.")
  else
    let strides := compute_strides shape.dims
    let total_bytes := Core.numel shape.dims * dtype_size dtype
    (allocate_memory h total_bytes device).map fun p =>
      (p.1,
        { shape_ := shape, stride_ := ⟨strides⟩, dtype_ := dtype,
          device_ := device, requires_grad_ := requires_grad,
          is_owner_ := true, data_ := some p.2 })

/-- The copy constructor `Tensor(const Tensor&) = default`,
`src/tensor.h` line 87: a memberwise copy; copying the `shared_ptr` field
`data_` shares the allocation instead of duplicating the bytes. -/
def Tensor.copy (t : Tensor) : Tensor := t

/-- Reading one element through `data<T>()` at a linear offset:
dereferences the shared buffer (0 for a null `data_`). -/
def readElem (h : Heap) (t : Tensor) (off : Nat) : Int :=
  match t.data_ with
  | some b => h.bufs b off
  | none => 0

/-- Writing one element through `data<T>()` at a linear offset:
mutates the shared buffer in place (no-op for a null `data_`). -/
def writeElem (h : Heap) (t : Tensor) (off : Nat) (v : Int) : Heap :=
  match t.data_ with
  | some b => h.write b off v
  | none => h

/-- The default constructor `Tensor() = default`, `src/tensor.h` line 84:
`shape_` and `stride_` default to empty vectors, `requires_grad_` and
`is_owner_` have `false` member initializers, `device_` defaults to CPU/0,
and `data_` is a null `shared_ptr`.  `dtype_` has no member initializer and
is left indeterminate by the C++ default constructor, so the model takes the
dtype as a parameter. -/
def Tensor.default_ctor (d : Dtype) : Tensor :=
  { shape_ := ⟨[]⟩, stride_ := ⟨[]⟩, dtype_ := d, device_ := Device.cpu0,
    requires_grad_ := false, is_owner_ := false, data_ := none }

end Core

namespace Lite

/-- Dtype enumeration of the lighter variant, `src/main_folder/tensor.h`
lines 29-32: only `Float32` and `Int32`. -/
inductive Dtype : Type where
  | Float32 | Int32
deriving DecidableEq, Repr

/-- Device type, `src/main_folder/tensor.h` lines 16-19. -/
inductive DeviceType : Type where
  | CPU | CUDA
deriving DecidableEq, Repr

/-- Shape wrapper, `src/main_folder/tensor.h` lines 37-42: dims are
`size_t`, hence `Nat`. -/
structure Shape : Type where
  dims : List Nat
deriving DecidableEq, Repr

/-- Arbitrarily nested sequence-of-sequences data: a scalar leaf or a
vector of further nestings (the shape of a `std::vector<...<T>...>` value). -/
inductive Nested (α : Type) : Type where
  | scalar : α → Nested α
  | seq : List (Nested α) → Nested α

/-- `infer_shape`, `src/main_folder/tensor.h` lines 49-63: a scalar has
empty dims; an empty vector has shape `[0]`; a non-empty vector contributes
its length followed by the shape inferred from its first element (siblings
are never inspected). -/
def infer_shape {α : Type} : Nested α → Shape
  | .scalar _ => ⟨[]⟩
  | .seq vec =>
    match vec with
    | [] => ⟨[0]⟩
    | x :: _ =>
      let s := infer_shape x
      ⟨vec.length :: s.dims⟩

mutual

/-- `flatten_recursive` / `flatten`, `src/main_folder/tensor.h` lines 77-95:
depth-first traversal pushing each scalar leaf in order. -/
def flatten {α : Type} : Nested α → List α
  | .scalar a => [a]
  | .seq vec => flattenList vec

/-- The loop of `flatten_recursive` over a vector's elements. -/
def flattenList {α : Type} : List (Nested α) → List α
  | [] => []
  | x :: xs => flatten x ++ flattenList xs

end

/-- `compute_numel`, `src/main_folder/tensor.h` lines 108-112: 0 for empty
dims, otherwise `std::accumulate` (a left fold starting at 1). -/
def compute_numel (dims : List Nat) : Nat :=
  if dims = [] then 0 else dims.foldl (· * ·) 1

/-- `compute_strides`, `src/main_folder/tensor.h` lines 115-123, as a pure
function from the dims and the previous `strides_` value: an empty shape
returns early and leaves the strides unchanged; otherwise the strides are
resized and filled by the same reverse running-product loop as the rich
variant. -/
def compute_strides (dims : List Nat) (old : List Nat) : List Nat :=
  if dims = [] then old else (compute_strides_loop dims).1

/-- `element_size`, `src/main_folder/tensor.h` lines 126-132: both wired
dtypes are 4 bytes wide. -/
def element_size : Dtype → Nat
  | .Float32 => 4
  | .Int32 => 4

/-- The `Tensor` record of the lighter variant, `src/main_folder/tensor.h`
lines 100-153: note the member initializers `dtype_ = Float32`,
`device_ = CPU`, `is_owner_ = true`, and that `strides_` is private with no
accessor. -/
structure Tensor : Type where
  dtype_ : Dtype
  device_ : DeviceType
  strides_ : List Nat
  is_owner_ : Bool
  shape_ : Shape
  data_ : Option Nat
deriving DecidableEq, Repr

/-- Accessor `numel()`, `src/main_folder/tensor.h` line 215. -/
def Tensor.numel (t : Tensor) : Nat := compute_numel t.shape_.dims

/-- `allocate_memory`, `src/main_folder/tensor.h` lines 135-149: computes
`compute_numel() * element_size()` bytes, rejects zero bytes, allocates on
CPU, fails for any other device.  Returns the updated heap and buffer id. -/
def allocate_memory (h : Heap) (dims : List Nat) (dtype : Dtype)
    (device : DeviceType) : Except TensorError (Heap × Nat) :=
  let total_bytes := compute_numel dims * element_size dtype
  if total_bytes = 0 then
    .error (.RuntimeError "Cannot allocate zero-size tensor.")
  else
    match device with
    | .CPU => .ok h.alloc
    | .CUDA => .error (.RuntimeError "CUDA allocation not implemented yet.")

/-- The nested-vector constructor, `src/main_folder/tensor.h` lines 162-171:
infers the shape from the nested data, allocates, then flattens and copies
the flattened values into the buffer.  `compute_strides` is never called, so
`strides_` keeps its default empty value.  (The `memcpy` trusts the inferred
shape: jagged data writes `flatten`'s full output regardless of the
allocated size, which the model's unbounded buffers record verbatim.) -/
def Tensor.from_nested (h : Heap) (vec : List (Nested Int)) (dtype : Dtype)
    (device : DeviceType) : Except TensorError (Heap × Tensor) :=
  let shape := infer_shape (Nested.seq vec)
  (allocate_memory h shape.dims dtype device).map fun p =>
    let flat_data := flattenList vec
    (p.1.store p.2 flat_data,
      { dtype_ := dtype, device_ := device, strides_ := [],
        is_owner_ := true, shape_ := shape, data_ := some p.2 })

/-- The expected-size loop of the flat-vector constructor,
`src/main_folder/tensor.h` lines 182-187: multiplies the dims left to
right, throwing at the first non-positive one (`dim <= 0` over `size_t`
is `dim = 0`). -/
def expected_size : List Nat → Except TensorError Nat
  | [] => .ok 1
  | d :: rest =>
    if d = 0 then .error (.InvalidArgument "Shape dimensions must be positive.")
    else (expected_size rest).map (d * ·)

/-- The flat-vector constructor, `src/main_folder/tensor.h` lines 176-194:
validates positive dims and that the data length equals the product of the
dims exactly, then allocates and copies the flat values into the buffer.
`compute_strides` is never called, so `strides_` keeps its default empty
value. -/
def Tensor.from_flat (h : Heap) (vec : List Int) (shape : Shape)
    (dtype : Dtype) (device : DeviceType) :
    Except TensorError (Heap × Tensor) :=
  (expected_size shape.dims).bind fun expected =>
    if vec.length ≠ expected then
      .error (.InvalidArgument "Data size does not match tensor shape.")
    else
      (allocate_memory h shape.dims dtype device).map fun p =>
        (p.1.store p.2 vec,
          { dtype_ := dtype, device_ := device, strides_ := [],
            is_owner_ := true, shape_ := shape, data_ := some p.2 })

/-- The allocate-only constructor, `src/main_folder/tensor.h` lines
199-206: no validation of the shape; computes strides (from the default
empty `strides_`) and allocates.  Bad shapes are only caught inside
`allocate_memory` as a zero-byte allocation. -/
def Tensor.alloc_only (h : Heap) (shape : Shape) (dtype : Dtype)
    (device : DeviceType) : Except TensorError (Heap × Tensor) :=
  let strides := compute_strides shape.dims []
  (allocate_memory h shape.dims dtype device).map fun p =>
    (p.1,
      { dtype_ := dtype, device_ := device, strides_ := strides,
        is_owner_ := true, shape_ := shape, data_ := some p.2 })

/-- Reading one element through `data<T>()` at a linear offset. -/
def readElem (h : Heap) (t : Tensor) (off : Nat) : Int :=
  match t.data_ with
  | some b => h.bufs b off
  | none => 0

/-- `std::fill(ptr, ptr + t.numel(), v)` through `t.data<T>()`:
overwrites the first `numel` elements of the tensor's buffer with `v`. -/
def fill (h : Heap) (t : Tensor) (v : Int) : Heap :=
  match t.data_ with
  | some b => h.store b (List.replicate t.numel v)
  | none => h

/-- `Tensor::zeros`, `src/main_folder/tensor.cpp` lines 8-18: allocate via
the allocate-only constructor, then fill every element with `0.0f`
(Float32 branch) or `0` (Int32 branch). -/
def zeros (h : Heap) (shape : Shape) (dtype : Dtype) (device : DeviceType) :
    Except TensorError (Heap × Tensor) :=
  (Tensor.alloc_only h shape dtype device).map fun p =>
    match dtype with
    | .Float32 => (fill p.1 p.2 0, p.2)
    | .Int32 => (fill p.1 p.2 0, p.2)

/-- `Tensor::ones`, `src/main_folder/tensor.cpp` lines 23-33: allocate via
the allocate-only constructor, then fill every element with `1.0f`
(Float32 branch) or `1` (Int32 branch). -/
def ones (h : Heap) (shape : Shape) (dtype : Dtype) (device : DeviceType) :
    Except TensorError (Heap × Tensor) :=
  (Tensor.alloc_only h shape dtype device).map fun p =>
    match dtype with
    | .Float32 => (fill p.1 p.2 1, p.2)
    | .Int32 => (fill p.1 p.2 1, p.2)

end Lite

/-- The row-major stride law of the specification: the strides have the
same length as the dims, the last stride of a non-empty shape is 1, and
`stride[i] = stride[i+1] * dims[i+1]` for every `i < rank - 1`. -/
def stride_law (dims strides : List Nat) : Prop :=
  strides.length = dims.length ∧
  (dims ≠ [] → strides.getLast? = some 1) ∧
  ∀ i, i + 1 < dims.length →
    strides.getD i 0 = strides.getD (i + 1) 0 * dims.getD (i + 1) 0

/-! ### Helper lemmas about the stride loop -/

lemma compute_strides_loop_length (l : List Nat) :
    (compute_strides_loop l).1.length = l.length := by
  induction l with
  | nil => rfl
  | cons d rest ih => simp [compute_strides_loop, ih]

lemma compute_strides_loop_law (l : List Nat) :
    ∀ i, i + 1 < l.length →
      (compute_strides_loop l).1.getD i 0 =
        (compute_strides_loop l).1.getD (i + 1) 0 * l.getD (i + 1) 0 := by
  induction l with
  | nil => intro i hi; simp at hi
  | cons d rest ih =>
    intro i hi
    cases rest with
    | nil => simp at hi
    | cons d' rest' =>
      cases i with
      | zero => simp [compute_strides_loop]
      | succ j =>
        have hj : j + 1 < (d' :: rest').length := by
          simpa using Nat.lt_of_succ_lt_succ hi
        simpa [compute_strides_loop] using ih j hj

lemma compute_strides_loop_getLast? (l : List Nat) (hl : l ≠ []) :
    (compute_strides_loop l).1.getLast? = some 1 := by
  induction l with
  | nil => exact absurd rfl hl
  | cons d rest ih =>
    cases rest with
    | nil => rfl
    | cons d' rest' =>
      have := ih (by simp)
      simpa [compute_strides_loop] using this

lemma foldl_mul_eq_prod (l : List Nat) : l.foldl (· * ·) 1 = l.prod :=
  (List.prod_eq_foldl).symm

/-! ### Claim theorems -/

/-- C1: for every non-empty shape, the computed strides have the same length
as the shape, the last stride is 1, and `stride[i] = stride[i+1] * dims[i+1]`
for every `i < rank - 1` (row-major); both variants' `compute_strides` agree
on non-empty shapes; `dims = [2,3,4]` yields `[12,4,1]`; and an empty shape
yields an empty stride sequence, not an error. -/
theorem compute_strides_spec :
    (∀ dims : List Nat, dims ≠ [] →
      (Core.compute_strides dims).length = dims.length ∧
      (Core.compute_strides dims).getLast? = some 1 ∧
      (∀ i, i + 1 < dims.length →
        (Core.compute_strides dims).getD i 0 =
          (Core.compute_strides dims).getD (i + 1) 0 * dims.getD (i + 1) 0) ∧
      Lite.compute_strides dims [] = Core.compute_strides dims) ∧
    Core.compute_strides [2, 3, 4] = [12, 4, 1] ∧
    Core.compute_strides [] = [] ∧
    Lite.compute_strides [] [] = [] := by
  refine ⟨fun dims hd => ?_, by decide, rfl, rfl⟩
  simp only [Core.compute_strides, Lite.compute_strides, if_neg hd]
  refine ⟨compute_strides_loop_length dims,
    compute_strides_loop_getLast? dims hd, ?_, trivial⟩
  intro i hi
  simpa [compute_strides_loop_length] using compute_strides_loop_law dims i hi

/-- Witness: the stride law facts at the concrete shape `[2,3,4]`. -/
theorem compute_strides_spec_witness :
    (Core.compute_strides [2, 3, 4]).getLast? = some 1 ∧
    (Core.compute_strides [2, 3, 4]).getD 0 0 =
      (Core.compute_strides [2, 3, 4]).getD 1 0 * 3 :=
  ⟨(compute_strides_spec.1 [2, 3, 4] (by decide)).2.1,
   (compute_strides_spec.1 [2, 3, 4] (by decide)).2.2.1 0 (by decide)⟩

/-- C2: for every non-empty dims sequence, `numel` (in both variants) equals
the product of the dims — for `[2,3,4]` it is 24 — and the empty dims
sequence gives `numel = 0` (the "not yet shaped" sentinel). -/
theorem numel_spec :
    (∀ dims : List Nat, dims ≠ [] →
      Core.numel dims = dims.prod ∧ Lite.compute_numel dims = dims.prod) ∧
    Core.numel [] = 0 ∧ Lite.compute_numel [] = 0 ∧
    Core.numel [2, 3, 4] = 24 := by
  refine ⟨fun dims hd => ?_, rfl, rfl, by decide⟩
  simp only [Core.numel, Lite.compute_numel, if_neg hd]
  rw [foldl_mul_eq_prod]
  exact ⟨rfl, rfl⟩

/-- Witness: `numel` at the concrete shape `[2,3,4]`. -/
theorem numel_spec_witness : Core.numel [2, 3, 4] = [2, 3, 4].prod :=
  (numel_spec.1 [2, 3, 4] (by decide)).1

/-- C6: shape inference from nested literal data: a scalar infers the empty
shape, an empty outer sequence infers `[0]`, a non-empty sequence infers its
length followed by the shape of its first element, and (trusting the first
element) the inferred shape is independent of the siblings beyond their
count. -/
theorem infer_shape_spec :
    (∀ a : Int, (Lite.infer_shape (Lite.Nested.scalar a)).dims = []) ∧
    (Lite.infer_shape (Lite.Nested.seq ([] : List (Lite.Nested Int)))).dims = [0] ∧
    (∀ (x : Lite.Nested Int) (xs : List (Lite.Nested Int)),
      (Lite.infer_shape (Lite.Nested.seq (x :: xs))).dims =
        (x :: xs).length :: (Lite.infer_shape x).dims) ∧
    (∀ (x : Lite.Nested Int) (xs ys : List (Lite.Nested Int)),
      xs.length = ys.length →
      Lite.infer_shape (Lite.Nested.seq (x :: xs)) =
        Lite.infer_shape (Lite.Nested.seq (x :: ys))) := by
  refine ⟨fun a => rfl, rfl, fun x xs => rfl, fun x xs ys hlen => ?_⟩
  simp [Lite.infer_shape, hlen]

/-- Witness: inference at a concrete level ignores a sibling's value. -/
theorem infer_shape_spec_witness :
    Lite.infer_shape (Lite.Nested.seq [Lite.Nested.scalar (1 : Int), Lite.Nested.scalar 2]) =
      Lite.infer_shape (Lite.Nested.seq [Lite.Nested.scalar (1 : Int), Lite.Nested.scalar 3]) :=
  infer_shape_spec.2.2.2 (Lite.Nested.scalar 1)
    [Lite.Nested.scalar 2] [Lite.Nested.scalar 3] rfl

/-- C7: `nbytes()` is `numel()` times the byte width of the dtype; the byte
width lookup is total over the closed dtype enumeration with the widths
2/2/2/4/4/8/8 and is never zero; a tensor constructed over shape `[2,3]`
with `Float32` has `nbytes = 24`. -/
theorem nbytes_spec :
    (∀ t : Core.Tensor,
      t.nbytes = Core.numel t.shape_.dims * Core.dtype_size t.dtype_) ∧
    (∀ d : Core.Dtype, 0 < Core.dtype_size d) ∧
    Core.dtype_size .Int16 = 2 ∧ Core.dtype_size .Bfloat16 = 2 ∧
    Core.dtype_size .Float16 = 2 ∧ Core.dtype_size .Int32 = 4 ∧
    Core.dtype_size .Float32 = 4 ∧ Core.dtype_size .Int64 = 8 ∧
    Core.dtype_size .Float64 = 8 ∧
    (Core.Tensor.construct emptyHeap ⟨[2, 3]⟩ .Float32 Core.Device.cpu0
        false).toOption.map (fun p => p.2.nbytes) = some 24 := by
  exact ⟨fun t => rfl, fun d => by cases d <;> decide,
    rfl, rfl, rfl, rfl, rfl, rfl, rfl, rfl⟩

/-- Witness: the byte width of `Float32` is positive. -/
theorem nbytes_spec_witness : 0 < Core.dtype_size Core.Dtype.Float32 :=
  nbytes_spec.2.1 Core.Dtype.Float32

/-- C10: a default-constructed tensor (for any value the indeterminate
`dtype_` field may hold) has empty shape and stride, `numel() = 0`,
`nbytes() = 0` and `is_owner() = false`, even though every allocating
construction path rejects empty and zero-size shapes. -/
theorem default_tensor_spec :
    ∀ d : Core.Dtype,
      (Core.Tensor.default_ctor d).shape_.dims = [] ∧
      (Core.Tensor.default_ctor d).stride_.strides = [] ∧
      (Core.Tensor.default_ctor d).numel = 0 ∧
      (Core.Tensor.default_ctor d).nbytes = 0 ∧
      (Core.Tensor.default_ctor d).is_owner_ = false := by
  intro d
  refine ⟨rfl, rfl, rfl, ?_, rfl⟩
  simp [Core.Tensor.nbytes, Core.Tensor.numel, Core.numel, Core.Tensor.default_ctor]

/-- Witness: the default tensor facts at dtype `Float32`. -/
theorem default_tensor_spec_witness :
    (Core.Tensor.default_ctor Core.Dtype.Float32).shape_.dims = [] ∧
    (Core.Tensor.default_ctor Core.Dtype.Float32).stride_.strides = [] ∧
    (Core.Tensor.default_ctor Core.Dtype.Float32).numel = 0 ∧
    (Core.Tensor.default_ctor Core.Dtype.Float32).nbytes = 0 ∧
    (Core.Tensor.default_ctor Core.Dtype.Float32).is_owner_ = false :=
  default_tensor_spec Core.Dtype.Float32

/-- C9: the copy constructor duplicates only metadata and shares the
underlying buffer, so a write through the copy's `data<T>()` is observable
when reading the same offset through the original. -/
theorem copy_shares_buffer_spec :
    ∀ (t : Core.Tensor) (h : Heap) (b off : Nat) (v : Int),
      t.data_ = some b →
      (Core.Tensor.copy t).data_ = t.data_ ∧
      (Core.Tensor.copy t).shape_ = t.shape_ ∧
      (Core.Tensor.copy t).stride_ = t.stride_ ∧
      (Core.Tensor.copy t).dtype_ = t.dtype_ ∧
      Core.readElem (Core.writeElem h (Core.Tensor.copy t) off v) t off = v := by
  intro t h b off v hb
  refine ⟨rfl, rfl, rfl, rfl, ?_⟩
  simp [Core.Tensor.copy, Core.readElem, Core.writeElem, hb, Heap.write]

/-- Witness: write 7 through a copy at offset 0, read 7 through the
original. -/
theorem copy_shares_buffer_spec_witness :
    Core.readElem
      (Core.writeElem emptyHeap
        (Core.Tensor.copy
          ⟨⟨[2]⟩, ⟨[1]⟩, .Float32, Core.Device.cpu0, false, true, some 0⟩) 0 7)
      ⟨⟨[2]⟩, ⟨[1]⟩, .Float32, Core.Device.cpu0, false, true, some 0⟩ 0 = 7 :=
  (copy_shares_buffer_spec
    ⟨⟨[2]⟩, ⟨[1]⟩, .Float32, Core.Device.cpu0, false, true, some 0⟩
    emptyHeap 0 0 7 rfl).2.2.2.2

/-! ### Helper lemmas about `Except` results and the heap -/

lemma except_map_eq_ok {ε α β : Type} {f : α → β} {r : Except ε α} {b : β}
    (h : Except.map f r = Except.ok b) : ∃ a, r = Except.ok a ∧ b = f a := by
  cases r with
  | error e => simp [Except.map] at h
  | ok a =>
    refine ⟨a, rfl, ?_⟩
    simpa [Except.map] using h.symm

lemma except_bind_eq_ok {ε α β : Type} {f : α → Except ε β} {r : Except ε α}
    {b : β} (h : Except.bind r f = Except.ok b) :
    ∃ a, r = Except.ok a ∧ f a = Except.ok b := by
  cases r with
  | error e => simp [Except.bind] at h
  | ok a =>
    refine ⟨a, rfl, ?_⟩
    simpa [Except.bind] using h

lemma store_bufs_getD (h : Heap) (b : Nat) (data : List Int) (off : Nat)
    (hoff : off < data.length) :
    (h.store b data).bufs b off = data.getD off 0 := by
  show (if b = b then data.getD off (h.bufs b off) else h.bufs b off) =
    data.getD off 0
  rw [if_pos rfl, List.getD_eq_getElem _ _ hoff, List.getD_eq_getElem _ _ hoff]

lemma lite_allocate_memory_ok {h : Heap} {dims : List Nat}
    {dtype : Lite.Dtype} {dev : Lite.DeviceType} {p : Heap × Nat}
    (hok : Lite.allocate_memory h dims dtype dev = .ok p) :
    Lite.compute_numel dims ≠ 0 ∧ dims ≠ [] ∧ dev = .CPU ∧
    p = ({ h with next := h.next + 1 }, h.next) := by
  simp only [Lite.allocate_memory] at hok
  by_cases htz : Lite.compute_numel dims * Lite.element_size dtype = 0
  · rw [if_pos htz] at hok
    exact absurd hok (by simp)
  · rw [if_neg htz] at hok
    have hnum : Lite.compute_numel dims ≠ 0 := fun h0 => htz (by rw [h0, Nat.zero_mul])
    have hne : dims ≠ [] := by
      intro h0
      exact hnum (by rw [h0]; rfl)
    cases dev with
    | CPU =>
      refine ⟨hnum, hne, rfl, ?_⟩
      injection hok with h1
      rw [← h1]
      rfl
    | CUDA => exact absurd hok (by simp)

lemma construct_ok {h : Heap} {shape : Core.Shape} {dtype : Core.Dtype}
    {dev : Core.Device} {rg : Bool} {h' : Heap} {t : Core.Tensor}
    (hok : Core.Tensor.construct h shape dtype dev rg = .ok (h', t)) :
    shape.dims ≠ [] ∧ t.shape_ = shape ∧
    t.stride_.strides = Core.compute_strides shape.dims := by
  simp only [Core.Tensor.construct] at hok
  by_cases h1 : shape.dims = []
  · rw [if_pos h1] at hok
    exact absurd hok (by simp)
  · rw [if_neg h1] at hok
    by_cases h2 : (shape.dims.any fun d => decide (d = 0)) = true
    · rw [if_pos h2] at hok
      exact absurd hok (by simp)
    · rw [if_neg h2] at hok
      obtain ⟨p, hp, hbt⟩ := except_map_eq_ok hok
      injection hbt with hh ht
      exact ⟨h1, by rw [ht], by rw [ht]⟩

lemma alloc_only_ok {h : Heap} {shape : Lite.Shape} {dtype : Lite.Dtype}
    {dev : Lite.DeviceType} {h' : Heap} {t : Lite.Tensor}
    (hok : Lite.Tensor.alloc_only h shape dtype dev = .ok (h', t)) :
    shape.dims ≠ [] ∧ t.shape_ = shape ∧
    t.strides_ = Lite.compute_strides shape.dims [] := by
  simp only [Lite.Tensor.alloc_only] at hok
  obtain ⟨p, hp, hbt⟩ := except_map_eq_ok hok
  obtain ⟨hnum, hne, hdev, hpv⟩ := lite_allocate_memory_ok hp
  injection hbt with hh ht
  exact ⟨hne, by rw [ht], by rw [ht]⟩

lemma from_flat_ok_strides {h : Heap} {vec : List Int} {shape : Lite.Shape}
    {dtype : Lite.Dtype} {dev : Lite.DeviceType} {h' : Heap} {t : Lite.Tensor}
    (hok : Lite.Tensor.from_flat h vec shape dtype dev = .ok (h', t)) :
    t.strides_ = [] ∧ t.shape_ = shape := by
  simp only [Lite.Tensor.from_flat] at hok
  obtain ⟨e, he, hrest⟩ := except_bind_eq_ok hok
  by_cases hlen : vec.length ≠ e
  · rw [if_pos hlen] at hrest
    exact absurd hrest (by simp)
  · rw [if_neg hlen] at hrest
    obtain ⟨p, hp, hbt⟩ := except_map_eq_ok hrest
    injection hbt with hh ht
    exact ⟨by rw [ht], by rw [ht]⟩

lemma from_nested_ok_strides {h : Heap} {vec : List (Lite.Nested Int)}
    {dtype : Lite.Dtype} {dev : Lite.DeviceType} {h' : Heap} {t : Lite.Tensor}
    (hok : Lite.Tensor.from_nested h vec dtype dev = .ok (h', t)) :
    t.strides_ = [] ∧ t.shape_ = Lite.infer_shape (Lite.Nested.seq vec) := by
  simp only [Lite.Tensor.from_nested] at hok
  obtain ⟨p, hp, hbt⟩ := except_map_eq_ok hok
  injection hbt with hh ht
  exact ⟨by rw [ht], by rw [ht]⟩

lemma expected_size_pos {dims : List Nat} (hd : ∀ d ∈ dims, 0 < d) :
    Lite.expected_size dims = .ok dims.prod := by
  induction dims with
  | nil => rfl
  | cons d rest ih =>
    have hdpos : ¬ d = 0 := Nat.pos_iff_ne_zero.mp (hd d (by simp))
    have hrest := ih fun x hx => hd x (by simp [hx])
    simp only [Lite.expected_size]
    rw [if_neg hdpos, hrest]
    rfl

lemma expected_size_zero {dims : List Nat} (h0 : 0 ∈ dims) :
    Lite.expected_size dims =
      .error (.InvalidArgument "Shape dimensions must be positive.") := by
  induction dims with
  | nil => simp at h0
  | cons d rest ih =>
    by_cases hd : d = 0
    · simp only [Lite.expected_size]
      rw [if_pos hd]
    · have h0' : 0 ∈ rest := by
        cases List.mem_cons.mp h0 with
        | inl h => exact absurd h.symm hd
        | inr h => exact h
      simp only [Lite.expected_size]
      rw [if_neg hd, ih h0']
      rfl

lemma fill_readElem {h : Heap} {t : Lite.Tensor} {b : Nat} {v : Int}
    {off : Nat} (hb : t.data_ = some b) (hoff : off < t.numel) :
    Lite.readElem (Lite.fill h t v) t off = v := by
  simp only [Lite.fill, Lite.readElem, hb]
  rw [store_bufs_getD _ _ _ _ (by simpa using hoff),
    List.getD_eq_getElem _ _ (by simpa using hoff), List.getElem_replicate]

/-- C3 counterexample: the flat-data constructor of the lighter variant
never computes strides, so the tensor built from 6 flat values with shape
`[2,3]` stores an empty stride sequence (length 0) against a rank-2 shape —
the claimed length equality is false for this constructed tensor. -/
theorem constructed_strides_diverge_cex :
    (Lite.Tensor.from_flat emptyHeap [0, 1, 2, 3, 4, 5] ⟨[2, 3]⟩ .Float32
        .CPU).toOption.map (fun p => (p.2.strides_, p.2.shape_.dims)) =
      some ([], [2, 3]) ∧
    (Lite.Tensor.from_flat emptyHeap [0, 1, 2, 3, 4, 5] ⟨[2, 3]⟩ .Float32
        .CPU).toOption.map
        (fun p => decide (p.2.strides_.length = p.2.shape_.dims.length)) =
      some false :=
  ⟨rfl, rfl⟩

/-- C3 amended: shape and stride agree (same length, row-major stride law)
on every tensor produced by the rich variant's primary constructor and by
the lite variant's allocate-only constructor; but the lite variant's
flat-data and nested-literal constructors never compute strides, leaving
the stored stride sequence empty, so shape and stride diverge there. -/
theorem constructed_strides_spec :
    (∀ (h : Heap) (shape : Core.Shape) (dtype : Core.Dtype)
        (dev : Core.Device) (rg : Bool) (h' : Heap) (t : Core.Tensor),
      Core.Tensor.construct h shape dtype dev rg = .ok (h', t) →
      stride_law t.shape_.dims t.stride_.strides) ∧
    (∀ (h : Heap) (shape : Lite.Shape) (dtype : Lite.Dtype)
        (dev : Lite.DeviceType) (h' : Heap) (t : Lite.Tensor),
      Lite.Tensor.alloc_only h shape dtype dev = .ok (h', t) →
      stride_law t.shape_.dims t.strides_) ∧
    (∀ (h : Heap) (vec : List Int) (shape : Lite.Shape) (dtype : Lite.Dtype)
        (dev : Lite.DeviceType) (h' : Heap) (t : Lite.Tensor),
      Lite.Tensor.from_flat h vec shape dtype dev = .ok (h', t) →
      t.strides_ = []) ∧
    (∀ (h : Heap) (vec : List (Lite.Nested Int)) (dtype : Lite.Dtype)
        (dev : Lite.DeviceType) (h' : Heap) (t : Lite.Tensor),
      Lite.Tensor.from_nested h vec dtype dev = .ok (h', t) →
      t.strides_ = []) := by
  have law : ∀ dims : List Nat, dims ≠ [] →
      stride_law dims (compute_strides_loop dims).1 := by
    intro dims hd
    refine ⟨compute_strides_loop_length dims,
      fun _ => compute_strides_loop_getLast? dims hd, ?_⟩
    intro i hi
    exact compute_strides_loop_law dims i hi
  refine ⟨?_, ?_, ?_, ?_⟩
  · intro h shape dtype dev rg h' t hok
    obtain ⟨hne, hsh, hst⟩ := construct_ok hok
    rw [hsh, hst, Core.compute_strides, if_neg hne]
    exact law shape.dims hne
  · intro h shape dtype dev h' t hok
    obtain ⟨hne, hsh, hst⟩ := alloc_only_ok hok
    rw [hsh, hst, Lite.compute_strides, if_neg hne]
    exact law shape.dims hne
  · intro h vec shape dtype dev h' t hok
    exact (from_flat_ok_strides hok).1
  · intro h vec dtype dev h' t hok
    exact (from_nested_ok_strides hok).1

/-- Witness: a concrete success of the allocate-only constructor whose
stored strides satisfy the stride law. -/
theorem constructed_strides_spec_witness :
    stride_law [2, 3] (Lite.compute_strides [2, 3] []) :=
  constructed_strides_spec.2.1 emptyHeap ⟨[2, 3]⟩ .Float32 .CPU
    { emptyHeap with next := 1 }
    { dtype_ := .Float32, device_ := .CPU,
      strides_ := Lite.compute_strides [2, 3] [], is_owner_ := true,
      shape_ := ⟨[2, 3]⟩, data_ := some 0 } rfl

/-- C4 counterexample: the lite variant's allocate-only constructor with the
all-zero shape `[0,0,0]` does not fail with an `InvalidArgument`-kind error
as claimed — it performs no shape validation and the failure comes from the
allocator as a `RuntimeError` ("allocation error" kind). -/
theorem alloc_only_error_kind_cex :
    Lite.Tensor.alloc_only emptyHeap ⟨[0, 0, 0]⟩ .Float32 .CPU =
      .error (.RuntimeError "Cannot allocate zero-size tensor.") ∧
    (TensorError.RuntimeError "Cannot allocate zero-size tensor.") ∉
      Set.range TensorError.InvalidArgument := by
  refine ⟨rfl, ?_⟩
  rintro ⟨msg, hmsg⟩
  exact TensorError.noConfusion hmsg

/-- C4 amended: the rich variant's primary constructor fails with
`InvalidArgument` for an empty shape and for any zero dimension; the lite
variant's flat-data constructor fails with `InvalidArgument` for a zero
dimension and, strictly, whenever the flat length differs from the product
of positive dims (never truncating or padding); but the lite allocate-only
constructor performs no shape validation of its own — an empty or zero-size
shape there fails inside the allocator with a `RuntimeError`
(allocation-error kind), not an `InvalidArgument`-kind error. -/
theorem construction_errors_spec :
    (∀ (h : Heap) (shape : Core.Shape) (dtype : Core.Dtype)
        (dev : Core.Device) (rg : Bool), shape.dims = [] →
      Core.Tensor.construct h shape dtype dev rg =
        .error (.InvalidArgument "Tensor shape cannot be empty.")) ∧
    (∀ (h : Heap) (shape : Core.Shape) (dtype : Core.Dtype)
        (dev : Core.Device) (rg : Bool), shape.dims ≠ [] → 0 ∈ shape.dims →
      Core.Tensor.construct h shape dtype dev rg =
        .error (.InvalidArgument "Tensor dimensions must be positive.")) ∧
    (∀ (h : Heap) (vec : List Int) (shape : Lite.Shape) (dtype : Lite.Dtype)
        (dev : Lite.DeviceType),
      (∀ d ∈ shape.dims, 0 < d) → vec.length ≠ shape.dims.prod →
      Lite.Tensor.from_flat h vec shape dtype dev =
        .error (.InvalidArgument "Data size does not match tensor shape.")) ∧
    (∀ (h : Heap) (vec : List Int) (shape : Lite.Shape) (dtype : Lite.Dtype)
        (dev : Lite.DeviceType), 0 ∈ shape.dims →
      Lite.Tensor.from_flat h vec shape dtype dev =
        .error (.InvalidArgument "Shape dimensions must be positive.")) ∧
    (∀ (h : Heap) (shape : Lite.Shape) (dtype : Lite.Dtype)
        (dev : Lite.DeviceType), Lite.compute_numel shape.dims = 0 →
      Lite.Tensor.alloc_only h shape dtype dev =
        .error (.RuntimeError "Cannot allocate zero-size tensor.")) := by
  refine ⟨?_, ?_, ?_, ?_, ?_⟩
  · intro h shape dtype dev rg hempty
    simp only [Core.Tensor.construct]
    rw [if_pos hempty]
  · intro h shape dtype dev rg hne hzero
    have hany : (shape.dims.any fun d => decide (d = 0)) = true := by
      simp only [List.any_eq_true, decide_eq_true_eq]
      exact ⟨0, hzero, rfl⟩
    simp only [Core.Tensor.construct]
    rw [if_neg hne, if_pos hany]
  · intro h vec shape dtype dev hpos hlen
    simp only [Lite.Tensor.from_flat]
    rw [expected_size_pos hpos]
    simp only [Except.bind]
    rw [if_pos hlen]
  · intro h vec shape dtype dev h0
    simp only [Lite.Tensor.from_flat]
    rw [expected_size_zero h0]
    rfl
  · intro h shape dtype dev hnum
    simp only [Lite.Tensor.alloc_only, Lite.allocate_memory]
    rw [if_pos (by rw [hnum, Nat.zero_mul])]
    rfl

/-- Witness: the error cases at the concrete inputs of the claim — shape
`[0,0,0]` and shape `[]` for the validating constructor, 5 flat values
against the declared shape `[2,3]`, and flat data against the zero-dim
shape `[0,3]`. -/
theorem construction_errors_spec_witness :
    Core.Tensor.construct emptyHeap ⟨[0, 0, 0]⟩ .Float32 Core.Device.cpu0
        false =
      .error (.InvalidArgument "Tensor dimensions must be positive.") ∧
    Core.Tensor.construct emptyHeap ⟨[]⟩ .Float32 Core.Device.cpu0 false =
      .error (.InvalidArgument "Tensor shape cannot be empty.") ∧
    Lite.Tensor.from_flat emptyHeap [0, 1, 2, 3, 4] ⟨[2, 3]⟩ .Float32 .CPU =
      .error (.InvalidArgument "Data size does not match tensor shape.") ∧
    Lite.Tensor.from_flat emptyHeap [0, 1] ⟨[0, 3]⟩ .Float32 .CPU =
      .error (.InvalidArgument "Shape dimensions must be positive.") :=
  ⟨construction_errors_spec.2.1 emptyHeap ⟨[0, 0, 0]⟩ .Float32
      Core.Device.cpu0 false (by decide) (by decide),
   construction_errors_spec.1 emptyHeap ⟨[]⟩ .Float32 Core.Device.cpu0
      false rfl,
   construction_errors_spec.2.2.1 emptyHeap [0, 1, 2, 3, 4] ⟨[2, 3]⟩
      .Float32 .CPU (by decide) (by decide),
   construction_errors_spec.2.2.2.1 emptyHeap [0, 1] ⟨[0, 3]⟩
      .Float32 .CPU (by decide)⟩

/-- C5: constructing a tensor from the flat data `[0,1,2,3,4,5]` with shape
`[2,3]` and reading back through `data<T>()` at the linear offset
`i*stride[0] + j*stride[1]` (with the row-major strides `[3,1]` computed
for that shape) returns the original flat value at position `i*3 + j`, for
every `0 ≤ i < 2` and `0 ≤ j < 3`. -/
theorem flat_roundtrip_spec :
    ∀ (h : Heap) (i j : Nat), i < 2 → j < 3 →
      (Lite.Tensor.from_flat h [0, 1, 2, 3, 4, 5] ⟨[2, 3]⟩ .Float32
          .CPU).toOption.map
        (fun p => Lite.readElem p.1 p.2
          (i * (Lite.compute_strides [2, 3] []).getD 0 0 +
           j * (Lite.compute_strides [2, 3] []).getD 1 0)) =
      some (([0, 1, 2, 3, 4, 5] : List Int).getD (i * 3 + j) 0) := by
  intro h i j hi hj
  interval_cases i <;> interval_cases j <;>
    simp [Lite.Tensor.from_flat, Lite.expected_size, Lite.allocate_memory,
      Lite.compute_numel, Lite.element_size, Lite.compute_strides,
      compute_strides_loop, Heap.alloc, Heap.store, Lite.readElem,
      Except.bind, Except.map, Except.toOption, List.getD]

/-- Witness: the round-trip read at the last index pair `(1,2)`. -/
theorem flat_roundtrip_spec_witness :
    (Lite.Tensor.from_flat emptyHeap [0, 1, 2, 3, 4, 5] ⟨[2, 3]⟩ .Float32
        .CPU).toOption.map
      (fun p => Lite.readElem p.1 p.2
        (1 * (Lite.compute_strides [2, 3] []).getD 0 0 +
         2 * (Lite.compute_strides [2, 3] []).getD 1 0)) =
    some (([0, 1, 2, 3, 4, 5] : List Int).getD (1 * 3 + 2) 0) :=
  flat_roundtrip_spec emptyHeap 1 2 (by decide) (by decide)


/-- C8: for every valid shape (non-empty, all dims positive) and each of the
two wired dtypes, `zeros` succeeds and every one of the `numel` elements of
the resulting tensor reads back as 0 (the additive identity), and `ones`
succeeds with every element reading back as 1 (the multiplicative
identity); the resulting tensor keeps the requested shape and has
`numel = product(dims)`. -/
theorem zeros_ones_spec :
    ∀ (h : Heap) (shape : Lite.Shape) (dtype : Lite.Dtype),
      shape.dims ≠ [] → (∀ d ∈ shape.dims, 0 < d) →
      ((Lite.zeros h shape dtype .CPU).toOption.map (fun p => p.2.shape_) =
        some shape ∧
       (Lite.zeros h shape dtype .CPU).toOption.map (fun p => p.2.numel) =
        some shape.dims.prod ∧
       ∀ off, off < shape.dims.prod →
        (Lite.zeros h shape dtype .CPU).toOption.map
          (fun p => Lite.readElem p.1 p.2 off) = some 0) ∧
      ((Lite.ones h shape dtype .CPU).toOption.map (fun p => p.2.shape_) =
        some shape ∧
       (Lite.ones h shape dtype .CPU).toOption.map (fun p => p.2.numel) =
        some shape.dims.prod ∧
       ∀ off, off < shape.dims.prod →
        (Lite.ones h shape dtype .CPU).toOption.map
          (fun p => Lite.readElem p.1 p.2 off) = some 1) := by
  intro h shape dtype hne hpos
  have hnum : Lite.compute_numel shape.dims = shape.dims.prod := by
    rw [Lite.compute_numel, if_neg hne, foldl_mul_eq_prod]
  have hprod : shape.dims.prod ≠ 0 :=
    Nat.pos_iff_ne_zero.mp (List.prod_pos hpos)
  have htz : ¬ Lite.compute_numel shape.dims * Lite.element_size dtype = 0 := by
    rw [hnum]
    cases dtype <;> exact Nat.mul_ne_zero hprod (by decide)
  have halloc : Lite.Tensor.alloc_only h shape dtype .CPU =
      .ok ({ h with next := h.next + 1 },
        { dtype_ := dtype, device_ := .CPU,
          strides_ := Lite.compute_strides shape.dims [], is_owner_ := true,
          shape_ := shape, data_ := some h.next }) := by
    simp only [Lite.Tensor.alloc_only, Lite.allocate_memory]
    rw [if_neg htz]
    rfl
  refine ⟨⟨?_, ?_, ?_⟩, ?_, ?_, ?_⟩
  · rw [Lite.zeros, halloc]
    cases dtype <;> rfl
  · rw [Lite.zeros, halloc]
    cases dtype <;> exact congrArg some hnum
  · intro off hoff
    have hoffn : off < Lite.compute_numel shape.dims := by
      rw [hnum]
      exact hoff
    rw [Lite.zeros, halloc]
    cases dtype with
    | Float32 =>
      exact congrArg some
        (@fill_readElem { h with next := h.next + 1 }
          { dtype_ := .Float32, device_ := .CPU,
            strides_ := Lite.compute_strides shape.dims [],
            is_owner_ := true, shape_ := shape, data_ := some h.next }
          h.next 0 off rfl hoffn)
    | Int32 =>
      exact congrArg some
        (@fill_readElem { h with next := h.next + 1 }
          { dtype_ := .Int32, device_ := .CPU,
            strides_ := Lite.compute_strides shape.dims [],
            is_owner_ := true, shape_ := shape, data_ := some h.next }
          h.next 0 off rfl hoffn)
  · rw [Lite.ones, halloc]
    cases dtype <;> rfl
  · rw [Lite.ones, halloc]
    cases dtype <;> exact congrArg some hnum
  · intro off hoff
    have hoffn : off < Lite.compute_numel shape.dims := by
      rw [hnum]
      exact hoff
    rw [Lite.ones, halloc]
    cases dtype with
    | Float32 =>
      exact congrArg some
        (@fill_readElem { h with next := h.next + 1 }
          { dtype_ := .Float32, device_ := .CPU,
            strides_ := Lite.compute_strides shape.dims [],
            is_owner_ := true, shape_ := shape, data_ := some h.next }
          h.next 1 off rfl hoffn)
    | Int32 =>
      exact congrArg some
        (@fill_readElem { h with next := h.next + 1 }
          { dtype_ := .Int32, device_ := .CPU,
            strides_ := Lite.compute_strides shape.dims [],
            is_owner_ := true, shape_ := shape, data_ := some h.next }
          h.next 1 off rfl hoffn)

/-- Witness: `zeros` and `ones` at shape `[2,3]`, dtype `Float32`, element
offset 0, on the empty heap. -/
theorem zeros_ones_spec_witness :
    (Lite.zeros emptyHeap ⟨[2, 3]⟩ .Float32 .CPU).toOption.map
      (fun p => Lite.readElem p.1 p.2 0) = some 0 ∧
    (Lite.ones emptyHeap ⟨[2, 3]⟩ .Float32 .CPU).toOption.map
      (fun p => Lite.readElem p.1 p.2 0) = some 1 :=
  ⟨(zeros_ones_spec emptyHeap ⟨[2, 3]⟩ .Float32 (by decide)
      (by decide)).1.2.2 0 (by decide),
   (zeros_ones_spec emptyHeap ⟨[2, 3]⟩ .Float32 (by decide)
      (by decide)).2.2.2 0 (by decide)⟩
